import Mathlib

/-!
Shallow embedding of `parker6kApp/src/parker6kController.cpp` (class
`p6kController` of the parker6k EPICS motor driver).

Embedded here, each from the corresponding source function:
the transport wrapper `lowLevelWriteRead`, the write entry points
`writeFloat64` and `writeInt32`, the deferred-move coordinator
`processDeferredMoves`, the poll path `poll` / `getGlobalStatus`, the axis
lookup `getAxis` and the constructor `p6kControllerNew` / `p6kCreateAxes`.

Modelling conventions:
`double` is modelled as `ℚ`, `epicsInt32` as `ℤ`, `asynStatus` as `Bool`
(`true` means `asynSuccess`).  The outcome of each physical transport round
trip (`pasynOctetSyncIO->writeRead`) is an oracle `ℕ → Bool` consulted at a
cursor `nx` counting the round trips actually performed.  Every operation
returns, besides the new controller state, the list of observable events it
produced: parameter-mirror writes, actual transport exchanges (with the
command string sent) and axis status refreshes.
-/

namespace P6k

/-- `P6K_ERROR_PRINT_TIME_` (seconds). -/
def P6K_ERROR_PRINT_TIME : ℚ := 1

/-- Parameter-library index standing for `motorPosition_`.  Concrete distinct
indices stand in for the slots handed out by `createParam`; only their
distinctness matters. -/
def motorPosition_ : ℕ := 0

/-- Parameter-library index standing for `motorLowLimit_`. -/
def motorLowLimit_ : ℕ := 1

/-- Parameter-library index standing for `motorHighLimit_`. -/
def motorHighLimit_ : ℕ := 2

/-- Parameter-library index standing for `motorEncoderRatio_`. -/
def motorEncoderRatio_ : ℕ := 3

/-- Parameter-library index standing for `motorDeferMoves_`. -/
def motorDeferMoves_ : ℕ := 4

/-- Per-axis state of a `p6kAxis` as used by the controller source: the
deferred-move intent (`deferredMove_`, `deferredPosition_`,
`deferredRelative_`), the axis-scoped `motorStatusCommsError_` flag, and the
per-axis double/integer parameter mirrors written through
`setDoubleParam` / `setIntegerParam`. -/
structure AxisSt where
  deferredMove : Bool
  deferredPosition : ℚ
  deferredRelative : Bool
  commsError : Bool
  dparams : ℕ → ℚ
  iparams : ℕ → ℤ

/-- A freshly created axis: no deferred intent, no axis comms error, zeroed
parameter mirrors. -/
def axisInit : AxisSt :=
  { deferredMove := false, deferredPosition := 0, deferredRelative := false,
    commsError := false, dparams := fun _ => 0, iparams := fun _ => 0 }

/-- Controller state: `numAxes_`, whether `lowLevelPortUser_` is non-NULL,
the controller-wide `P6K_C_CommsError_` parameter (`true` = `P6K_ERROR_`),
the axis array `pAxes_` (entries may be NULL), the `motorEncoderRatio_`
mirror read by `getDoubleParam`, `movesDeferred_`, the poll throttling state
`lastTimeSecs_` / `printNextError_`, and the transport-exchange cursor. -/
structure Ctrl where
  numAxes : ℕ
  hasPort : Bool
  commsError : Bool
  axes : ℕ → Option AxisSt
  encoderRatio : ℚ
  movesDeferred : ℤ
  lastTimeSecs : ℚ
  printNextError : Bool
  nx : ℕ

/-- `p6kController::p6kController`: the motor-controller base is constructed
with `numAxes+1` axes (asyn address 0 is reserved for controller parameters
and populated with the dummy `pAxisZero`); on a failed low-level port connect
`P6K_C_CommsError_` is set to `P6K_ERROR_`, otherwise to `P6K_OK_`;
`movesDeferred_`, `lastTimeSecs_` start at zero and `printNextError_` false. -/
def p6kControllerNew (numAxes : ℕ) (connectOk : Bool) : Ctrl :=
  { numAxes := numAxes + 1,
    hasPort := connectOk,
    commsError := !connectOk,
    axes := fun i => if i = 0 then some axisInit else none,
    encoderRatio := 1,
    movesDeferred := 0,
    lastTimeSecs := 0,
    printNextError := false,
    nx := 0 }

/-- `p6kCreateAxes`: creates axes 1..n (axis number 0 is rejected by
`p6kCreateAxis`, being reserved for controller parameters). -/
def p6kCreateAxes (c : Ctrl) (n : ℕ) : Ctrl :=
  { c with axes := fun i => if 1 ≤ i ∧ i ≤ n then some axisInit else c.axes i }

/-- `p6kController::getAxis(int axisNo)`: NULL when the axis number is
negative or not below `numAxes_`, otherwise the stored entry
`pAxes_[axisNo]`. -/
def getAxis (c : Ctrl) (axisNo : ℤ) : Option AxisSt :=
  if axisNo < 0 ∨ (c.numAxes : ℤ) ≤ axisNo then none
  else c.axes axisNo.toNat

/-- Replace the axis record at a given axis number (parameter-mirror and flag
writes on an axis go through this). -/
def updAxis (c : Ctrl) (axisNo : ℤ) (f : AxisSt → AxisSt) : Ctrl :=
  { c with axes := fun i => if (i : ℤ) = axisNo then (c.axes i).map f else c.axes i }

/-- `pAxis->setDoubleParam(function, value)`: per-axis double mirror write. -/
def setAxisDParam (c : Ctrl) (axisNo : ℤ) (function : ℕ) (v : ℚ) : Ctrl :=
  updAxis c axisNo fun ax => { ax with dparams := Function.update ax.dparams function v }

/-- `pAxis->setIntegerParam(function, value)`: per-axis integer mirror write. -/
def setAxisIParam (c : Ctrl) (axisNo : ℤ) (function : ℕ) (v : ℤ) : Ctrl :=
  updAxis c axisNo fun ax => { ax with iparams := Function.update ax.iparams function v }

/-- `setIntegerParam(pAxis->axisNo_, motorStatusCommsError_, ...)`: the
axis-scoped comms-error flag. -/
def setAxisCommsError (c : Ctrl) (axisNo : ℤ) (b : Bool) : Ctrl :=
  updAxis c axisNo fun ax => { ax with commsError := b }

/-- The per-axis double mirror as seen through `getAxis` (0 when the axis
does not exist). -/
def axisDParam (c : Ctrl) (axisNo : ℤ) (function : ℕ) : ℚ :=
  match getAxis c axisNo with
  | some ax => ax.dparams function
  | none => 0

/-- The axis-scoped comms-error flag as seen through `getAxis`. -/
def axisCommsErr (c : Ctrl) (axisNo : ℤ) : Bool :=
  match getAxis c axisNo with
  | some ax => ax.commsError
  | none => false

/-- The deferred-move flag of an axis as seen through `getAxis` (false when
the axis does not exist). -/
def deferredAt (c : Ctrl) (axisNo : ℤ) : Bool :=
  match getAxis c axisNo with
  | some ax => ax.deferredMove
  | none => false

/-- `sprintf(command, "!%dS", pAxis->axisNo_)`: the stop command. -/
def stopCmd (axisNo : ℤ) : String := "!" ++ toString axisNo ++ "S"

/-- `sprintf(command, "%dPSET%d", pAxis->axisNo_, position)`. -/
def psetCmd (axisNo position : ℤ) : String :=
  toString axisNo ++ "PSET" ++ toString position

/-- `sprintf(command, "%dPESET%d", pAxis->axisNo_, encposition)`. -/
def pesetCmd (axisNo encposition : ℤ) : String :=
  toString axisNo ++ "PESET" ++ toString encposition

/-- Observable events: a per-axis double mirror write, a per-axis integer
mirror write, one actual transport exchange (command sent, outcome), or an
axis status refresh. -/
inductive Ev where
  | paramSet (axisNo : ℤ) (function : ℕ) (value : ℚ)
  | paramSetI (axisNo : ℤ) (function : ℕ) (value : ℤ)
  | xchg (command : String) (ok : Bool)
  | refresh (axisNo : ℤ)
deriving DecidableEq, Repr

/-- The transport exchanges contained in an event trace. -/
def xchgs (evs : List Ev) : List Ev :=
  evs.filter fun e => match e with | Ev.xchg _ _ => true | _ => false

/-- Result of an operation: new controller state, `asynStatus` (`true` =
`asynSuccess`), and the events produced. -/
structure OpRes where
  ctrl : Ctrl
  ok : Bool
  evs : List Ev

/-- `p6kController::lowLevelWriteRead`: with no low-level port the
`P6K_C_CommsError_` parameter is set to `P6K_ERROR_` and `asynError`
returned; if that parameter is already set the write/read is skipped
entirely and the initial `asynSuccess` status is returned; otherwise one
`pasynOctetSyncIO->writeRead` round trip is performed and the parameter is
set to `P6K_ERROR_` on failure, `P6K_OK_` on success. -/
def lowLevelWriteRead (c : Ctrl) (oracle : ℕ → Bool) (command : String) : OpRes :=
  if !c.hasPort then
    { ctrl := { c with commsError := true }, ok := false, evs := [] }
  else if c.commsError then
    { ctrl := c, ok := true, evs := [] }
  else
    let ok := oracle c.nx
    { ctrl := { c with nx := c.nx + 1, commsError := !ok }, ok := ok,
      evs := [Ev.xchg command ok] }

/-- Status-query command used by the axis refresh.  The axis source file is
not under src/, so the exact command text is a placeholder; no claim depends
on it. -/
def statusCmd (axisNo : ℤ) : String := toString axisNo ++ "TAS"

/-- Modelled from the spec: `p6kAxis::getAxisStatus` (the axis source file)
is not under src/.  Per spec section 4.3 step 5 and section 4.5 step 2, the
refresh reads axis status via the Transport Gateway only when the link is
currently considered healthy, and it publishes the device readback position
into the position mirror only when that read actually took place and
succeeded (an unparsable or skipped read updates nothing). -/
def getAxisStatus (c : Ctrl) (oracle : ℕ → Bool) (devicePos : ℚ) (axisNo : ℤ) :
    Ctrl × List Ev :=
  let attempted := c.hasPort && !c.commsError
  let r := lowLevelWriteRead c oracle (statusCmd axisNo)
  if attempted && r.ok then
    (setAxisDParam r.ctrl axisNo motorPosition_ devicePos, r.evs ++ [Ev.refresh axisNo])
  else
    (r.ctrl, r.evs ++ [Ev.refresh axisNo])

/-- `p6kController::writeFloat64`: a NULL axis returns `asynError` at once;
otherwise the per-axis parameter mirror is written first.  For
`motorPosition_` the stop command, then `PSET`, then `PESET` are issued, each
guarded by the command being non-empty (they always are) and the running
status still being good, with `position = floor(value + 0.5)` cast to
`epicsInt32` and `encposition = floor(position * encRatio + 0.5)`; then the
axis status refresh `getAxisStatus` runs unconditionally.  The
`motorLowLimit_` / `motorHighLimit_` branches contain only commented-out
code, so no command is issued for them.  Finally the axis
`motorStatusCommsError_` flag is set from the accumulated status and the
call returns `asynError` exactly when that status is bad. -/
def writeFloat64 (c : Ctrl) (oracle : ℕ → Bool) (devicePos : ℚ)
    (axisNo : ℤ) (function : ℕ) (value : ℚ) : OpRes :=
  match getAxis c axisNo with
  | none => { ctrl := c, ok := false, evs := [] }
  | some _ =>
    let c1 := setAxisDParam c axisNo function value
    if function = motorPosition_ then
      let position : ℤ := ⌊value + 1/2⌋
      let r1 := lowLevelWriteRead c1 oracle (stopCmd axisNo)
      let s1 := r1.ok
      let r2 := if s1 then lowLevelWriteRead r1.ctrl oracle (psetCmd axisNo position)
                else { ctrl := r1.ctrl, ok := false, evs := [] }
      let s2 := s1 && r2.ok
      let encRatio := r2.ctrl.encoderRatio
      let encposition : ℤ := ⌊(position : ℚ) * encRatio + 1/2⌋
      let r3 := if s2 then lowLevelWriteRead r2.ctrl oracle (pesetCmd axisNo encposition)
                else { ctrl := r2.ctrl, ok := false, evs := [] }
      let s3 := s2 && r3.ok
      let rr := getAxisStatus r3.ctrl oracle devicePos axisNo
      if s3 then
        { ctrl := setAxisCommsError rr.1 axisNo false, ok := true,
          evs := Ev.paramSet axisNo function value :: (r1.evs ++ r2.evs ++ r3.evs ++ rr.2) }
      else
        { ctrl := setAxisCommsError rr.1 axisNo true, ok := false,
          evs := Ev.paramSet axisNo function value :: (r1.evs ++ r2.evs ++ r3.evs ++ rr.2) }
    else
      { ctrl := setAxisCommsError c1 axisNo false, ok := true,
        evs := [Ev.paramSet axisNo function value] }

/-- `p6kController::processDeferredMoves`: the loop that would build the
combined move command has its `sprintf` commented out in the source, so the
command string stays empty; one `lowLevelWriteRead` is then issued
unconditionally with that empty command, the controller `P6K_C_CommsError_`
parameter is set from its outcome, and every existing axis deferred-move
flag is cleared regardless of that outcome. -/
def processDeferredMoves (c : Ctrl) (oracle : ℕ → Bool) : OpRes :=
  let command := ""
  let r := lowLevelWriteRead c oracle command
  let c1 := if r.ok then { r.ctrl with commsError := false }
            else { r.ctrl with commsError := true }
  let c2 := { c1 with axes := fun i =>
      (if i < c1.numAxes then (c1.axes i).map (fun ax => { ax with deferredMove := false })
       else c1.axes i) }
  { ctrl := c2, ok := r.ok, evs := r.evs }

/-- `p6kController::writeInt32`: a NULL axis returns `asynError`; the
per-axis integer mirror is written; writing `motorDeferMoves_` runs
`processDeferredMoves` exactly on the transition `value = 0` with
`movesDeferred_ ≠ 0`, and then stores the new value in `movesDeferred_`;
finally the axis `motorStatusCommsError_` flag is set from the accumulated
status and the call returns `asynError` exactly when that status is bad. -/
def writeInt32 (c : Ctrl) (oracle : ℕ → Bool) (axisNo : ℤ) (function : ℕ)
    (value : ℤ) : OpRes :=
  match getAxis c axisNo with
  | none => { ctrl := c, ok := false, evs := [] }
  | some _ =>
    let c1 := setAxisIParam c axisNo function value
    let r : OpRes :=
      if function = motorDeferMoves_ then
        let r0 : OpRes :=
          if value = 0 ∧ c1.movesDeferred ≠ 0 then processDeferredMoves c1 oracle
          else { ctrl := c1, ok := true, evs := [] }
        { r0 with ctrl := { r0.ctrl with movesDeferred := value } }
      else { ctrl := c1, ok := true, evs := [] }
    if r.ok then
      { ctrl := setAxisCommsError r.ctrl axisNo false, ok := true,
        evs := Ev.paramSetI axisNo function value :: r.evs }
    else
      { ctrl := setAxisCommsError r.ctrl axisNo true, ok := false,
        evs := Ev.paramSetI axisNo function value :: r.evs }

/-- Immediate (non-deferred) move command.  The axis source file is not under
src/, so the text is a placeholder; no claim depends on it. -/
def moveCmd (axisNo target : ℤ) (relative : Bool) : String :=
  toString axisNo ++ (if relative then "D" else "D=") ++ toString target

/-- Modelled from the spec: `p6kAxis::move` (the move entry point) is not
under src/.  Per spec sections 4.4 and 8: a move request on an unknown axis
address returns NotFound and performs no exchange; while deferral is active
the request only stores the intent (target, relative flag) on the axis and
does not contact the Transport Gateway; otherwise the move is commanded
immediately over the transport. -/
def requestMove (c : Ctrl) (oracle : ℕ → Bool) (axisNo target : ℤ)
    (relative : Bool) : OpRes :=
  match getAxis c axisNo with
  | none => { ctrl := c, ok := false, evs := [] }
  | some _ =>
    if c.movesDeferred ≠ 0 then
      { ctrl := updAxis c axisNo (fun ax =>
          { ax with deferredMove := true, deferredPosition := (target : ℚ),
                    deferredRelative := relative }),
        ok := true, evs := [] }
    else
      let r := lowLevelWriteRead c oracle (moveCmd axisNo target relative)
      { ctrl := r.ctrl, ok := r.ok, evs := r.evs }

/-- Result of one poll cycle: new state, `asynStatus`, whether a user-visible
error report was emitted this cycle, whether the controller
`P6K_C_CommsError_` parameter was written this cycle, and the throttled
`printErrors` decision the cycle computed. -/
structure PollRes where
  ctrl : Ctrl
  ok : Bool
  reportEmitted : Bool
  flagWritten : Bool
  printErrors : Bool

/-- `p6kController::getGlobalStatus`: every protocol interaction in its body
is commented out in the source, so the status stays `asynSuccess` and the
controller `P6K_C_CommsError_` parameter is set to `P6K_OK_`. -/
def getGlobalStatus (c : Ctrl) : Ctrl × Bool :=
  ({ c with commsError := false }, true)

/-- `p6kController::poll`: with no low-level port it returns `asynError` at
once, emitting no report and writing no flag; otherwise it computes the
throttled `printErrors` decision from `lastTimeSecs_` and
`P6K_ERROR_PRINT_TIME_` (updating `lastTimeSecs_` when the interval has
elapsed, and forcing the decision when `printNextError_` is set), refreshes
the global status via `getGlobalStatus` (which, as the source stands, always
succeeds), and sets the `P6K_C_CommsError_` parameter from the cycle status;
the error report under `!status` is emitted unconditionally when that branch
is reached. -/
def poll (c : Ctrl) (now : ℚ) : PollRes :=
  if !c.hasPort then
    { ctrl := c, ok := false, reportEmitted := false, flagWritten := false,
      printErrors := false }
  else
    let pe1 := decide (¬ (now - c.lastTimeSecs < P6K_ERROR_PRINT_TIME))
    let c1 := if now - c.lastTimeSecs < P6K_ERROR_PRINT_TIME then c
              else { c with lastTimeSecs := now }
    let pe2 := pe1 || c1.printNextError
    let g := getGlobalStatus c1
    if g.2 then
      { ctrl := { g.1 with commsError := false }, ok := true,
        reportEmitted := false, flagWritten := true, printErrors := pe2 }
    else
      { ctrl := { g.1 with commsError := true }, ok := false,
        reportEmitted := true, flagWritten := true, printErrors := pe2 }

/-- Round half away from zero: the rounding rule named by the spec.
Spec-side definition, written from the spec words, for comparison with the
`floor(x + 0.5)` the source actually computes. -/
def roundHalfAway (x : ℚ) : ℤ := if 0 ≤ x then ⌊x + 1/2⌋ else -⌊-x + 1/2⌋

/-- One externally invokable operation on the controller. -/
inductive Op where
  | wfloat (axisNo : ℤ) (function : ℕ) (value : ℚ) (devicePos : ℚ)
  | wint (axisNo : ℤ) (function : ℕ) (value : ℤ)
  | move (axisNo target : ℤ) (relative : Bool)
  | pollAt (now : ℚ)

/-- Apply one operation to the controller state. -/
def step (oracle : ℕ → Bool) (c : Ctrl) (op : Op) : Ctrl :=
  match op with
  | Op.wfloat a f v d => (writeFloat64 c oracle d a f v).ctrl
  | Op.wint a f v => (writeInt32 c oracle a f v).ctrl
  | Op.move a t rel => (requestMove c oracle a t rel).ctrl
  | Op.pollAt t => (poll c t).ctrl

/-- The controller state reached from a fresh controller (with `nCreate`
axes created) after a sequence of operations. -/
def run (oracle : ℕ → Bool) (numAxes nCreate : ℕ) (connectOk : Bool)
    (ops : List Op) : Ctrl :=
  ops.foldl (step oracle) (p6kCreateAxes (p6kControllerNew numAxes connectOk) nCreate)

/-- The deferred-move invariant: an axis deferred-move flag may be set only
while deferral mode (`movesDeferred_`) is active. -/
def DeferInv (c : Ctrl) : Prop :=
  ∀ a : ℤ, deferredAt c a = true → c.movesDeferred ≠ 0

/-- Transport oracle answering every exchange with success. -/
def oracleTrue : ℕ → Bool := fun _ => true

/-- Transport oracle failing every exchange. -/
def oracleFalse : ℕ → Bool := fun _ => false

/-- A healthy, connected controller with real axes 1..3 created. -/
def cAxis3 : Ctrl := p6kCreateAxes (p6kControllerNew 3 true) 3

/-- A controller with real axes 1..7, deferral active, no deferred move
pending. -/
def cDeferNone : Ctrl :=
  { p6kCreateAxes (p6kControllerNew 7 true) 7 with movesDeferred := 1 }

/-- As `cDeferNone`, but with deferred intents pending on axes 2, 5 and 7. -/
def cDefer257 : Ctrl :=
  { cDeferNone with axes := fun i =>
      (if i = 2 ∨ i = 5 ∨ i = 7 then some { axisInit with deferredMove := true }
       else (p6kCreateAxes (p6kControllerNew 7 true) 7).axes i) }

/-- A controller whose low-level port connect failed (no transport). -/
def cNoPort : Ctrl := p6kCreateAxes (p6kControllerNew 3 false) 3

section Helpers

@[simp] theorem numAxes_updAxis (c : Ctrl) (a : ℤ) (f : AxisSt → AxisSt) :
    (updAxis c a f).numAxes = c.numAxes := rfl

@[simp] theorem hasPort_updAxis (c : Ctrl) (a : ℤ) (f : AxisSt → AxisSt) :
    (updAxis c a f).hasPort = c.hasPort := rfl

@[simp] theorem commsError_updAxis (c : Ctrl) (a : ℤ) (f : AxisSt → AxisSt) :
    (updAxis c a f).commsError = c.commsError := rfl

@[simp] theorem nx_updAxis (c : Ctrl) (a : ℤ) (f : AxisSt → AxisSt) :
    (updAxis c a f).nx = c.nx := rfl

@[simp] theorem encoderRatio_updAxis (c : Ctrl) (a : ℤ) (f : AxisSt → AxisSt) :
    (updAxis c a f).encoderRatio = c.encoderRatio := rfl

@[simp] theorem movesDeferred_updAxis (c : Ctrl) (a : ℤ) (f : AxisSt → AxisSt) :
    (updAxis c a f).movesDeferred = c.movesDeferred := rfl

theorem hasPort_setAxisDParam (c : Ctrl) (a : ℤ) (fn : ℕ) (v : ℚ) :
    (setAxisDParam c a fn v).hasPort = c.hasPort := rfl

theorem commsError_setAxisDParam (c : Ctrl) (a : ℤ) (fn : ℕ) (v : ℚ) :
    (setAxisDParam c a fn v).commsError = c.commsError := rfl

theorem nx_setAxisDParam (c : Ctrl) (a : ℤ) (fn : ℕ) (v : ℚ) :
    (setAxisDParam c a fn v).nx = c.nx := rfl

theorem numAxes_setAxisDParam (c : Ctrl) (a : ℤ) (fn : ℕ) (v : ℚ) :
    (setAxisDParam c a fn v).numAxes = c.numAxes := rfl

theorem encoderRatio_setAxisDParam (c : Ctrl) (a : ℤ) (fn : ℕ) (v : ℚ) :
    (setAxisDParam c a fn v).encoderRatio = c.encoderRatio := rfl

theorem hasPort_setAxisIParam (c : Ctrl) (a : ℤ) (fn : ℕ) (v : ℤ) :
    (setAxisIParam c a fn v).hasPort = c.hasPort := rfl

theorem commsError_setAxisIParam (c : Ctrl) (a : ℤ) (fn : ℕ) (v : ℤ) :
    (setAxisIParam c a fn v).commsError = c.commsError := rfl

theorem nx_setAxisIParam (c : Ctrl) (a : ℤ) (fn : ℕ) (v : ℤ) :
    (setAxisIParam c a fn v).nx = c.nx := rfl

theorem hasPort_setAxisCommsError (c : Ctrl) (a : ℤ) (x : Bool) :
    (setAxisCommsError c a x).hasPort = c.hasPort := rfl

theorem commsError_setAxisCommsError (c : Ctrl) (a : ℤ) (x : Bool) :
    (setAxisCommsError c a x).commsError = c.commsError := rfl

theorem nx_setAxisCommsError (c : Ctrl) (a : ℤ) (x : Bool) :
    (setAxisCommsError c a x).nx = c.nx := rfl

theorem getAxis_updAxis (c : Ctrl) (a b : ℤ) (f : AxisSt → AxisSt) :
    getAxis (updAxis c a f) b = if b = a then (getAxis c b).map f else getAxis c b := by
  by_cases h : b < 0 ∨ (c.numAxes : ℤ) ≤ b
  · simp [getAxis, updAxis, h]
  · have h1 : 0 ≤ b := le_of_not_lt (not_or.mp h).1
    have hb : ((b.toNat : ℤ)) = b := Int.toNat_of_nonneg h1
    simp [getAxis, updAxis, h, hb]

theorem getAxis_setAxisDParam (c : Ctrl) (a b : ℤ) (fn : ℕ) (v : ℚ) :
    getAxis (setAxisDParam c a fn v) b =
      if b = a then (getAxis c b).map
        (fun ax => { ax with dparams := Function.update ax.dparams fn v })
      else getAxis c b := getAxis_updAxis ..

theorem getAxis_setAxisCommsError (c : Ctrl) (a b : ℤ) (x : Bool) :
    getAxis (setAxisCommsError c a x) b =
      if b = a then (getAxis c b).map (fun ax => { ax with commsError := x })
      else getAxis c b := getAxis_updAxis ..

@[simp] theorem deferredAt_updAxis_of_pres (c : Ctrl) (a b : ℤ)
    (f : AxisSt → AxisSt) (hf : ∀ ax, (f ax).deferredMove = ax.deferredMove) :
    deferredAt (updAxis c a f) b = deferredAt c b := by
  unfold deferredAt
  rw [getAxis_updAxis]
  by_cases hba : b = a
  · rw [if_pos hba]
    cases getAxis c b with
    | none => rfl
    | some ax => exact hf ax
  · rw [if_neg hba]

@[simp] theorem deferredAt_setAxisDParam (c : Ctrl) (a b : ℤ) (fn : ℕ) (v : ℚ) :
    deferredAt (setAxisDParam c a fn v) b = deferredAt c b :=
  deferredAt_updAxis_of_pres _ _ _ _ (fun _ => rfl)

@[simp] theorem deferredAt_setAxisIParam (c : Ctrl) (a b : ℤ) (fn : ℕ) (v : ℤ) :
    deferredAt (setAxisIParam c a fn v) b = deferredAt c b :=
  deferredAt_updAxis_of_pres _ _ _ _ (fun _ => rfl)

@[simp] theorem deferredAt_setAxisCommsError (c : Ctrl) (a b : ℤ) (x : Bool) :
    deferredAt (setAxisCommsError c a x) b = deferredAt c b :=
  deferredAt_updAxis_of_pres _ _ _ _ (fun _ => rfl)

@[simp] theorem getAxis_mkCommsError (c : Ctrl) (x : Bool) (b : ℤ) :
    getAxis { c with commsError := x } b = getAxis c b := rfl

@[simp] theorem getAxis_mkNx (c : Ctrl) (n : ℕ) (x : Bool) (b : ℤ) :
    getAxis { c with nx := n, commsError := x } b = getAxis c b := rfl

@[simp] theorem deferredAt_lowLevelWriteRead (c : Ctrl) (o : ℕ → Bool)
    (s : String) (b : ℤ) :
    deferredAt (lowLevelWriteRead c o s).ctrl b = deferredAt c b := by
  unfold lowLevelWriteRead deferredAt
  cases hp : c.hasPort <;> cases ce : c.commsError <;> simp [hp, ce, getAxis]

@[simp] theorem movesDeferred_lowLevelWriteRead (c : Ctrl) (o : ℕ → Bool)
    (s : String) :
    (lowLevelWriteRead c o s).ctrl.movesDeferred = c.movesDeferred := by
  unfold lowLevelWriteRead
  cases hp : c.hasPort <;> cases ce : c.commsError <;> simp [hp, ce]

@[simp] theorem numAxes_lowLevelWriteRead (c : Ctrl) (o : ℕ → Bool) (s : String) :
    (lowLevelWriteRead c o s).ctrl.numAxes = c.numAxes := by
  unfold lowLevelWriteRead
  cases hp : c.hasPort <;> cases ce : c.commsError <;> simp [hp, ce]

@[simp] theorem hasPort_lowLevelWriteRead (c : Ctrl) (o : ℕ → Bool) (s : String) :
    (lowLevelWriteRead c o s).ctrl.hasPort = c.hasPort := by
  unfold lowLevelWriteRead
  cases hp : c.hasPort <;> cases ce : c.commsError <;> simp [hp, ce]

@[simp] theorem encoderRatio_lowLevelWriteRead (c : Ctrl) (o : ℕ → Bool)
    (s : String) :
    (lowLevelWriteRead c o s).ctrl.encoderRatio = c.encoderRatio := by
  unfold lowLevelWriteRead
  cases hp : c.hasPort <;> cases ce : c.commsError <;> simp [hp, ce]

@[simp] theorem deferredAt_getAxisStatus (c : Ctrl) (o : ℕ → Bool) (d : ℚ)
    (a b : ℤ) :
    deferredAt (getAxisStatus c o d a).1 b = deferredAt c b := by
  unfold getAxisStatus
  dsimp only
  split <;> simp

@[simp] theorem movesDeferred_getAxisStatus (c : Ctrl) (o : ℕ → Bool) (d : ℚ)
    (a : ℤ) :
    (getAxisStatus c o d a).1.movesDeferred = c.movesDeferred := by
  unfold getAxisStatus
  dsimp only
  split <;> simp [setAxisDParam]

@[simp] theorem ctrl_ite (P : Prop) [Decidable P] (x y : OpRes) :
    (if P then x else y).ctrl = if P then x.ctrl else y.ctrl := by
  split <;> rfl

@[simp] theorem ok_ite (P : Prop) [Decidable P] (x y : OpRes) :
    (if P then x else y).ok = if P then x.ok else y.ok := by
  split <;> rfl

@[simp] theorem evs_ite (P : Prop) [Decidable P] (x y : OpRes) :
    (if P then x else y).evs = if P then x.evs else y.evs := by
  split <;> rfl

@[simp] theorem deferredAt_ite (P : Prop) [Decidable P] (x y : Ctrl) (b : ℤ) :
    deferredAt (if P then x else y) b
      = if P then deferredAt x b else deferredAt y b := by
  split <;> rfl

@[simp] theorem movesDeferred_ite (P : Prop) [Decidable P] (x y : Ctrl) :
    (if P then x else y).movesDeferred
      = if P then x.movesDeferred else y.movesDeferred := by
  split <;> rfl

@[simp] theorem movesDeferred_setAxisDParam (c : Ctrl) (a : ℤ) (fn : ℕ) (v : ℚ) :
    (setAxisDParam c a fn v).movesDeferred = c.movesDeferred := rfl

@[simp] theorem movesDeferred_setAxisIParam (c : Ctrl) (a : ℤ) (fn : ℕ) (v : ℤ) :
    (setAxisIParam c a fn v).movesDeferred = c.movesDeferred := rfl

@[simp] theorem movesDeferred_setAxisCommsError (c : Ctrl) (a : ℤ) (x : Bool) :
    (setAxisCommsError c a x).movesDeferred = c.movesDeferred := rfl

@[simp] theorem deferredAt_mkMovesDeferred (c : Ctrl) (v : ℤ) (b : ℤ) :
    deferredAt { c with movesDeferred := v } b = deferredAt c b := rfl

@[simp] theorem axes_iteCtrl (P : Prop) [Decidable P] (x y : Ctrl) :
    (if P then x else y).axes = if P then x.axes else y.axes := by
  split <;> rfl

@[simp] theorem numAxes_iteCtrl (P : Prop) [Decidable P] (x y : Ctrl) :
    (if P then x else y).numAxes = if P then x.numAxes else y.numAxes := by
  split <;> rfl

theorem deferredAt_writeFloat64 (c : Ctrl) (o : ℕ → Bool) (d : ℚ) (a : ℤ)
    (fn : ℕ) (v : ℚ) (b : ℤ) :
    deferredAt (writeFloat64 c o d a fn v).ctrl b = deferredAt c b := by
  unfold writeFloat64
  cases hax : getAxis c a with
  | none => rfl
  | some ax =>
    dsimp only
    by_cases hfn : fn = motorPosition_ <;> simp [hfn]

theorem movesDeferred_writeFloat64 (c : Ctrl) (o : ℕ → Bool) (d : ℚ) (a : ℤ)
    (fn : ℕ) (v : ℚ) :
    (writeFloat64 c o d a fn v).ctrl.movesDeferred = c.movesDeferred := by
  unfold writeFloat64
  cases hax : getAxis c a with
  | none => rfl
  | some ax =>
    dsimp only
    by_cases hfn : fn = motorPosition_ <;> simp [hfn]

/-- An axis deferred-move flag is always false right after `clearDeferred`,
i.e. after the final loop of `processDeferredMoves`. -/
theorem deferredAt_clearAxes (c : Ctrl) (b : ℤ) :
    deferredAt { c with axes := fun i =>
      (if i < c.numAxes then (c.axes i).map (fun ax => { ax with deferredMove := false })
       else c.axes i) } b = false := by
  unfold deferredAt getAxis
  dsimp only
  by_cases h : b < 0 ∨ (c.numAxes : ℤ) ≤ b
  · rw [if_pos h]
  · rw [if_neg h]
    have h1 : 0 ≤ b := le_of_not_lt (not_or.mp h).1
    have h2 : b < (c.numAxes : ℤ) := lt_of_not_le (not_or.mp h).2
    have h3 : b.toNat < c.numAxes := by omega
    rw [if_pos h3]
    cases c.axes b.toNat <;> rfl

theorem deferredAt_processDeferredMoves (c : Ctrl) (o : ℕ → Bool) (b : ℤ) :
    deferredAt (processDeferredMoves c o).ctrl b = false := by
  unfold processDeferredMoves
  exact deferredAt_clearAxes _ b

theorem movesDeferred_processDeferredMoves (c : Ctrl) (o : ℕ → Bool) :
    (processDeferredMoves c o).ctrl.movesDeferred = c.movesDeferred := by
  unfold processDeferredMoves
  dsimp only
  split <;> simp

@[simp] theorem deferredAt_poll (c : Ctrl) (t : ℚ) (b : ℤ) :
    deferredAt (poll c t).ctrl b = deferredAt c b := by
  unfold poll getGlobalStatus
  dsimp only
  split
  · rfl
  · split <;> simp [deferredAt, getAxis]

@[simp] theorem movesDeferred_poll (c : Ctrl) (t : ℚ) :
    (poll c t).ctrl.movesDeferred = c.movesDeferred := by
  unfold poll getGlobalStatus
  dsimp only
  split
  · rfl
  · split <;> simp

theorem DeferInv_writeInt32 (c : Ctrl) (oracle : ℕ → Bool) (a : ℤ) (fn : ℕ)
    (v : ℤ) (h : DeferInv c) : DeferInv (writeInt32 c oracle a fn v).ctrl := by
  unfold writeInt32
  cases hax : getAxis c a with
  | none => exact h
  | some ax =>
    dsimp only
    by_cases hfn : fn = motorDeferMoves_
    · rw [if_pos hfn]
      by_cases hv : v = 0 ∧ (setAxisIParam c a fn v).movesDeferred ≠ 0
      · rw [if_pos hv]
        intro b hb
        rw [show (setAxisIParam c a fn v).movesDeferred = c.movesDeferred from rfl] at hv
        simp [deferredAt_processDeferredMoves] at hb
      · rw [if_neg hv]
        intro b hb
        simp only [movesDeferred_setAxisIParam] at hv
        simp at hb ⊢
        by_cases hv0 : v = 0
        · have hmd : c.movesDeferred = 0 := by
            by_contra hmd
            exact hv ⟨hv0, hmd⟩
          exact absurd hmd (h b hb)
        · exact hv0
    · rw [if_neg hfn]
      intro b hb
      simp at hb ⊢
      exact h b hb

theorem DeferInv_requestMove (c : Ctrl) (oracle : ℕ → Bool) (a t : ℤ)
    (rel : Bool) (h : DeferInv c) : DeferInv (requestMove c oracle a t rel).ctrl := by
  unfold requestMove
  cases hax : getAxis c a with
  | none => exact h
  | some ax =>
    dsimp only
    by_cases hd : c.movesDeferred ≠ 0
    · rw [if_pos hd]
      intro b hb
      simpa using hd
    · rw [if_neg hd]
      intro b hb
      simp at hb ⊢
      exact h b hb

theorem DeferInv_step (oracle : ℕ → Bool) (c : Ctrl) (op : Op)
    (h : DeferInv c) : DeferInv (step oracle c op) := by
  cases op with
  | wfloat a fn v d =>
      intro b hb
      rw [step] at hb ⊢
      rw [deferredAt_writeFloat64] at hb
      rw [movesDeferred_writeFloat64]
      exact h b hb
  | wint a fn v =>
      exact DeferInv_writeInt32 c oracle a fn v h
  | move a t rel =>
      exact DeferInv_requestMove c oracle a t rel h
  | pollAt t =>
      intro b hb
      rw [step] at hb ⊢
      rw [deferredAt_poll] at hb
      rw [movesDeferred_poll]
      exact h b hb

theorem DeferInv_foldl (oracle : ℕ → Bool) (ops : List Op) (c : Ctrl)
    (h : DeferInv c) : DeferInv (ops.foldl (step oracle) c) := by
  induction ops generalizing c with
  | nil => exact h
  | cons op rest ih => exact ih _ (DeferInv_step oracle c op h)

theorem deferredAt_init (n m : ℕ) (ok : Bool) (b : ℤ) :
    deferredAt (p6kCreateAxes (p6kControllerNew n ok) m) b = false := by
  unfold deferredAt getAxis p6kCreateAxes p6kControllerNew
  dsimp only
  by_cases h : b < 0 ∨ ((n + 1 : ℕ) : ℤ) ≤ b
  · rw [if_pos h]
  · rw [if_neg h]
    by_cases h1 : 1 ≤ b.toNat ∧ b.toNat ≤ m
    · rw [if_pos h1]
      rfl
    · rw [if_neg h1]
      by_cases h0 : b.toNat = 0
      · rw [if_pos h0]
        rfl
      · rw [if_neg h0]

theorem DeferInv_run (oracle : ℕ → Bool) (numAxes nCreate : ℕ)
    (connectOk : Bool) (ops : List Op) :
    DeferInv (run oracle numAxes nCreate connectOk ops) := by
  unfold run
  refine DeferInv_foldl oracle ops _ ?_
  intro b hb
  rw [deferredAt_init] at hb
  exact absurd hb (by simp)

theorem getAxis_eq_some (c : Ctrl) (a : ℤ) (ax : AxisSt)
    (h : getAxis c a = some ax) :
    ¬(a < 0 ∨ (c.numAxes : ℤ) ≤ a) ∧ 0 ≤ a ∧ c.axes a.toNat = some ax := by
  unfold getAxis at h
  by_cases hc : a < 0 ∨ (c.numAxes : ℤ) ≤ a
  · rw [if_pos hc] at h
    cases h
  · rw [if_neg hc] at h
    exact ⟨hc, le_of_not_lt (not_or.mp hc).1, h⟩

theorem lowLevelWriteRead_ok (c : Ctrl) (o : ℕ → Bool) (s : String)
    (hp : c.hasPort = true) (hh : c.commsError = false) (ho : o c.nx = true) :
    lowLevelWriteRead c o s =
      { ctrl := { c with nx := c.nx + 1, commsError := false }, ok := true,
        evs := [Ev.xchg s true] } := by
  unfold lowLevelWriteRead
  simp [hp, hh, ho]

theorem lowLevelWriteRead_fail (c : Ctrl) (o : ℕ → Bool) (s : String)
    (hp : c.hasPort = true) (hh : c.commsError = false) (ho : o c.nx = false) :
    lowLevelWriteRead c o s =
      { ctrl := { c with nx := c.nx + 1, commsError := true }, ok := false,
        evs := [Ev.xchg s false] } := by
  unfold lowLevelWriteRead
  simp [hp, hh, ho]

theorem lowLevelWriteRead_noPort (c : Ctrl) (o : ℕ → Bool) (s : String)
    (hp : c.hasPort = false) :
    lowLevelWriteRead c o s =
      { ctrl := { c with commsError := true }, ok := false, evs := [] } := by
  unfold lowLevelWriteRead
  simp [hp]

theorem lowLevelWriteRead_skip (c : Ctrl) (o : ℕ → Bool) (s : String)
    (hp : c.hasPort = true) (hh : c.commsError = true) :
    lowLevelWriteRead c o s = { ctrl := c, ok := true, evs := [] } := by
  unfold lowLevelWriteRead
  simp [hp, hh]


theorem writeFloat64_pos_trace (c : Ctrl) (o : ℕ → Bool) (d : ℚ) (a : ℤ) (p : ℚ)
    (hax : (getAxis c a).isSome = true)
    (hp : c.hasPort = true) (hh : c.commsError = false)
    (ho : ∀ n, o n = true) :
    (writeFloat64 c o d a motorPosition_ p).evs
      = [Ev.paramSet a motorPosition_ p,
         Ev.xchg (stopCmd a) true,
         Ev.xchg (psetCmd a ⌊p + 1/2⌋) true,
         Ev.xchg (pesetCmd a (⌊(⌊p + 1/2⌋ : ℚ) * c.encoderRatio + 1/2⌋)) true,
         Ev.xchg (statusCmd a) true,
         Ev.refresh a]
      ∧ (writeFloat64 c o d a motorPosition_ p).ok = true := by
  obtain ⟨ax, hax2⟩ := Option.isSome_iff_exists.mp hax
  unfold writeFloat64 getAxisStatus lowLevelWriteRead
  rw [hax2]
  simp [hp, hh, ho, setAxisDParam, updAxis]

theorem writeFloat64_pos_noPort (c : Ctrl) (o : ℕ → Bool) (d : ℚ) (a : ℤ) (p : ℚ)
    (hax : (getAxis c a).isSome = true)
    (hp : c.hasPort = false) :
    (writeFloat64 c o d a motorPosition_ p).evs
      = [Ev.paramSet a motorPosition_ p, Ev.refresh a]
      ∧ (writeFloat64 c o d a motorPosition_ p).ok = false
      ∧ axisCommsErr (writeFloat64 c o d a motorPosition_ p).ctrl a = true
      ∧ axisDParam (writeFloat64 c o d a motorPosition_ p).ctrl a motorPosition_ = p := by
  obtain ⟨ax, hax2⟩ := Option.isSome_iff_exists.mp hax
  obtain ⟨hno, hpos, hax3⟩ := getAxis_eq_some c a ax hax2
  have htn : ((a.toNat : ℤ)) = a := Int.toNat_of_nonneg hpos
  unfold writeFloat64 getAxisStatus lowLevelWriteRead
  rw [hax2]
  simp [hp, axisCommsErr, axisDParam, setAxisDParam, setAxisCommsError,
        getAxis, hno, hpos, hax3, htn, updAxis]

theorem writeFloat64_pos_stopFail (c : Ctrl) (o : ℕ → Bool) (d : ℚ) (a : ℤ) (p : ℚ)
    (hax : (getAxis c a).isSome = true)
    (hp : c.hasPort = true) (hh : c.commsError = false) (ho : o c.nx = false) :
    (writeFloat64 c o d a motorPosition_ p).evs
      = [Ev.paramSet a motorPosition_ p, Ev.xchg (stopCmd a) false, Ev.refresh a]
      ∧ (writeFloat64 c o d a motorPosition_ p).ok = false
      ∧ axisCommsErr (writeFloat64 c o d a motorPosition_ p).ctrl a = true
      ∧ axisDParam (writeFloat64 c o d a motorPosition_ p).ctrl a motorPosition_ = p := by
  obtain ⟨ax, hax2⟩ := Option.isSome_iff_exists.mp hax
  obtain ⟨hno, hpos, hax3⟩ := getAxis_eq_some c a ax hax2
  have htn : ((a.toNat : ℤ)) = a := Int.toNat_of_nonneg hpos
  unfold writeFloat64 getAxisStatus lowLevelWriteRead
  rw [hax2]
  simp [hp, hh, ho, axisCommsErr, axisDParam, setAxisDParam, setAxisCommsError,
        getAxis, hno, hpos, hax3, htn, updAxis]

theorem writeFloat64_pos_psetFail (c : Ctrl) (o : ℕ → Bool) (d : ℚ) (a : ℤ) (p : ℚ)
    (hax : (getAxis c a).isSome = true)
    (hp : c.hasPort = true) (hh : c.commsError = false)
    (ho0 : o c.nx = true) (ho1 : o (c.nx + 1) = false) :
    (writeFloat64 c o d a motorPosition_ p).evs
      = [Ev.paramSet a motorPosition_ p, Ev.xchg (stopCmd a) true,
         Ev.xchg (psetCmd a ⌊p + 1/2⌋) false, Ev.refresh a]
      ∧ (writeFloat64 c o d a motorPosition_ p).ok = false
      ∧ axisCommsErr (writeFloat64 c o d a motorPosition_ p).ctrl a = true
      ∧ axisDParam (writeFloat64 c o d a motorPosition_ p).ctrl a motorPosition_ = p := by
  obtain ⟨ax, hax2⟩ := Option.isSome_iff_exists.mp hax
  obtain ⟨hno, hpos, hax3⟩ := getAxis_eq_some c a ax hax2
  have htn : ((a.toNat : ℤ)) = a := Int.toNat_of_nonneg hpos
  unfold writeFloat64 getAxisStatus lowLevelWriteRead
  rw [hax2]
  simp [hp, hh, ho0, ho1, axisCommsErr, axisDParam, setAxisDParam, setAxisCommsError,
        getAxis, hno, hpos, hax3, htn, updAxis]

theorem writeFloat64_pos_pesetFail (c : Ctrl) (o : ℕ → Bool) (d : ℚ) (a : ℤ) (p : ℚ)
    (hax : (getAxis c a).isSome = true)
    (hp : c.hasPort = true) (hh : c.commsError = false)
    (ho0 : o c.nx = true) (ho1 : o (c.nx + 1) = true) (ho2 : o (c.nx + 1 + 1) = false) :
    (writeFloat64 c o d a motorPosition_ p).evs
      = [Ev.paramSet a motorPosition_ p, Ev.xchg (stopCmd a) true,
         Ev.xchg (psetCmd a ⌊p + 1/2⌋) true,
         Ev.xchg (pesetCmd a (⌊(⌊p + 1/2⌋ : ℚ) * c.encoderRatio + 1/2⌋)) false,
         Ev.refresh a]
      ∧ (writeFloat64 c o d a motorPosition_ p).ok = false
      ∧ axisCommsErr (writeFloat64 c o d a motorPosition_ p).ctrl a = true
      ∧ axisDParam (writeFloat64 c o d a motorPosition_ p).ctrl a motorPosition_ = p := by
  obtain ⟨ax, hax2⟩ := Option.isSome_iff_exists.mp hax
  obtain ⟨hno, hpos, hax3⟩ := getAxis_eq_some c a ax hax2
  have htn : ((a.toNat : ℤ)) = a := Int.toNat_of_nonneg hpos
  unfold writeFloat64 getAxisStatus lowLevelWriteRead
  rw [hax2]
  simp [hp, hh, ho0, ho1, ho2, axisCommsErr, axisDParam, setAxisDParam, setAxisCommsError,
        getAxis, hno, hpos, hax3, htn, updAxis]

theorem writeFloat64_pos_skipAll (c : Ctrl) (o : ℕ → Bool) (d : ℚ) (a : ℤ) (p : ℚ)
    (hax : (getAxis c a).isSome = true)
    (hp : c.hasPort = true) (hh : c.commsError = true) :
    (writeFloat64 c o d a motorPosition_ p).evs
      = [Ev.paramSet a motorPosition_ p, Ev.refresh a]
      ∧ (writeFloat64 c o d a motorPosition_ p).ok = true
      ∧ axisDParam (writeFloat64 c o d a motorPosition_ p).ctrl a motorPosition_ = p := by
  obtain ⟨ax, hax2⟩ := Option.isSome_iff_exists.mp hax
  obtain ⟨hno, hpos, hax3⟩ := getAxis_eq_some c a ax hax2
  have htn : ((a.toNat : ℤ)) = a := Int.toNat_of_nonneg hpos
  unfold writeFloat64 getAxisStatus lowLevelWriteRead
  rw [hax2]
  simp [hp, hh, axisDParam, setAxisDParam, setAxisCommsError,
        getAxis, hno, hpos, hax3, htn, updAxis]

theorem writeFloat64_other (c : Ctrl) (o : ℕ → Bool) (d : ℚ) (a : ℤ) (fn : ℕ) (v : ℚ)
    (hax : (getAxis c a).isSome = true) (hfn : fn ≠ motorPosition_) :
    (writeFloat64 c o d a fn v).evs = [Ev.paramSet a fn v]
      ∧ (writeFloat64 c o d a fn v).ok = true
      ∧ axisCommsErr (writeFloat64 c o d a fn v).ctrl a = false
      ∧ axisDParam (writeFloat64 c o d a fn v).ctrl a fn = v := by
  obtain ⟨ax, hax2⟩ := Option.isSome_iff_exists.mp hax
  obtain ⟨hno, hpos, hax3⟩ := getAxis_eq_some c a ax hax2
  have htn : ((a.toNat : ℤ)) = a := Int.toNat_of_nonneg hpos
  unfold writeFloat64
  rw [hax2]
  simp [hfn, axisCommsErr, axisDParam, setAxisDParam, setAxisCommsError,
        getAxis, hno, hpos, hax3, htn, updAxis]


theorem poll_noPort (c : Ctrl) (t : ℚ) (hp : c.hasPort = false) :
    poll c t = { ctrl := c, ok := false, reportEmitted := false,
                 flagWritten := false, printErrors := false } := by
  unfold poll
  simp [hp]

theorem poll_ok (c : Ctrl) (t : ℚ) (hp : c.hasPort = true) :
    (poll c t).ok = true := by
  unfold poll getGlobalStatus
  simp [hp]

theorem writeFloat64_pos_allOk (c : Ctrl) (o : ℕ → Bool) (d : ℚ) (a : ℤ) (p : ℚ)
    (hax : (getAxis c a).isSome = true)
    (hp : c.hasPort = true) (hh : c.commsError = false)
    (h0 : o c.nx = true) (h1 : o (c.nx + 1) = true) (h2 : o (c.nx + 1 + 1) = true) :
    (writeFloat64 c o d a motorPosition_ p).ok = true
    ∧ (writeFloat64 c o d a motorPosition_ p).evs.head?
        = some (Ev.paramSet a motorPosition_ p) := by
  obtain ⟨ax, hax2⟩ := Option.isSome_iff_exists.mp hax
  unfold writeFloat64 getAxisStatus lowLevelWriteRead
  rw [hax2]
  simp [hp, hh, h0, h1, h2, setAxisDParam, updAxis]

end Helpers

/-- The operation sequence used to exhibit a reachable state with a pending
deferred move: enable defer mode, then request a move on axis 2. -/
def opsC5 : List Op := [Op.wint 0 motorDeferMoves_ 1, Op.move 2 50 false]

/-- C1: the claim states that a release of defer mode with no pending
deferred move issues zero transport exchanges (an empty combined command is
never sent).  Evaluating the embedded source at exactly such a release
(`motorDeferMoves_` written to 0 while `movesDeferred_ = 1`, no axis with a
deferred move, port connected, comms healthy) shows the code performs
exactly one transport exchange and the command string it sends is empty:
the clause-building `sprintf` in `processDeferredMoves` is commented out and
the `lowLevelWriteRead` call is unguarded. -/
theorem C1_release_no_pending_sends_empty_exchange :
    xchgs (writeInt32 cDeferNone oracleTrue 0 motorDeferMoves_ 0).evs
      = [Ev.xchg "" true]
    ∧ (writeInt32 cDeferNone oracleTrue 0 motorDeferMoves_ 0).ok = true :=
  ⟨rfl, rfl⟩

/-- C2: the claim states that a release of defer mode with pending deferred
moves on axes 2, 5, 7 appends one move clause per pending axis to the
combined command and issues one exchange containing those clauses in
ascending order.  Evaluating the embedded source at that release shows that
exactly one exchange is issued but its command string is empty (no clause is
ever appended: the clause-building `sprintf` is commented out), while the
deferred-move flags of axes 2, 5 and 7 are nevertheless cleared. -/
theorem C2_release_pending_sends_empty_command :
    xchgs (writeInt32 cDefer257 oracleTrue 0 motorDeferMoves_ 0).evs
      = [Ev.xchg "" true]
    ∧ deferredAt (writeInt32 cDefer257 oracleTrue 0 motorDeferMoves_ 0).ctrl 2 = false
    ∧ deferredAt (writeInt32 cDefer257 oracleTrue 0 motorDeferMoves_ 0).ctrl 5 = false
    ∧ deferredAt (writeInt32 cDefer257 oracleTrue 0 motorDeferMoves_ 0).ctrl 7 = false :=
  ⟨rfl, rfl, rfl, rfl⟩

/-- C5: in every reachable controller state an axis `deferredMove_` flag is
set only while deferral mode (`movesDeferred_`) is active, and after every
run of `processDeferredMoves` every axis deferred-move flag is cleared,
whatever the outcome of the combined exchange. -/
theorem C5_deferred_gated_and_cleared :
    (∀ (oracle : ℕ → Bool) (numAxes nCreate : ℕ) (connectOk : Bool)
       (ops : List Op) (a : ℤ),
        deferredAt (run oracle numAxes nCreate connectOk ops) a = true →
        (run oracle numAxes nCreate connectOk ops).movesDeferred ≠ 0) ∧
    (∀ (c : Ctrl) (oracle : ℕ → Bool) (a : ℤ),
        deferredAt (processDeferredMoves c oracle).ctrl a = false) :=
  ⟨fun oracle nA nC ok ops a h => DeferInv_run oracle nA nC ok ops a h,
   fun c oracle a => deferredAt_processDeferredMoves c oracle a⟩

/-- Witness for C5 at concrete inputs: after enabling defer mode and
requesting a move on axis 2 the deferral flag is indeed active, and running
the dispatch on the controller with pending axes 2, 5, 7 leaves axis 2 with
no deferred move. -/
theorem C5_deferred_gated_and_cleared_witness :
    (run oracleTrue 7 7 true opsC5).movesDeferred ≠ 0 ∧
    deferredAt (processDeferredMoves cDefer257 oracleTrue).ctrl 2 = false :=
  ⟨C5_deferred_gated_and_cleared.1 oracleTrue 7 7 true opsC5 2 (by rfl),
   C5_deferred_gated_and_cleared.2 cDefer257 oracleTrue 2⟩

/-- C6 counterexample: with the controller comms-error parameter already set
and a port attached, `lowLevelWriteRead` performs no exchange and returns
`asynSuccess`, yet the comms-health flag is left unhealthy: a successful
return does not set the flag healthy, refuting the claim that every call
updates the flag to match its outcome. -/
theorem C6_skip_returns_success_without_update :
    (lowLevelWriteRead { cAxis3 with commsError := true } oracleTrue "2TPM").ok = true
    ∧ (lowLevelWriteRead { cAxis3 with commsError := true } oracleTrue "2TPM").ctrl.commsError = true
    ∧ (lowLevelWriteRead { cAxis3 with commsError := true } oracleTrue "2TPM").evs = [] :=
  ⟨rfl, rfl, rfl⟩

/-- C6 (amended): `lowLevelWriteRead` updates the controller comms-health
flag only on calls that reach the transport: with no port attached it sets
the flag unhealthy and fails; with the flag already unhealthy it skips the
exchange, leaves all state unchanged and returns success; with a port and a
healthy flag it performs exactly one exchange and sets the flag healthy on
success and unhealthy on failure. -/
theorem C6_flag_update_on_attempted_exchanges (c : Ctrl) (o : ℕ → Bool)
    (command : String) :
    (c.hasPort = false →
       (lowLevelWriteRead c o command).ok = false
       ∧ (lowLevelWriteRead c o command).ctrl.commsError = true
       ∧ (lowLevelWriteRead c o command).evs = [])
    ∧ (c.hasPort = true → c.commsError = true →
       (lowLevelWriteRead c o command).ok = true
       ∧ (lowLevelWriteRead c o command).ctrl = c
       ∧ (lowLevelWriteRead c o command).evs = [])
    ∧ (c.hasPort = true → c.commsError = false →
       (lowLevelWriteRead c o command).ok = o c.nx
       ∧ (lowLevelWriteRead c o command).ctrl.commsError = !(o c.nx)
       ∧ (lowLevelWriteRead c o command).evs = [Ev.xchg command (o c.nx)]) := by
  refine ⟨fun hp => ?_, fun hp hh => ?_, fun hp hh => ?_⟩
  · rw [lowLevelWriteRead_noPort c o command hp]
    exact ⟨rfl, rfl, rfl⟩
  · rw [lowLevelWriteRead_skip c o command hp hh]
    exact ⟨rfl, rfl, rfl⟩
  · unfold lowLevelWriteRead
    simp [hp, hh]

/-- Witness for C6 (amended) at concrete inputs, exercising the
exchange-performing case. -/
theorem C6_flag_update_on_attempted_exchanges_witness :
    (lowLevelWriteRead cAxis3 oracleTrue "2TPM").ok = oracleTrue cAxis3.nx
    ∧ (lowLevelWriteRead cAxis3 oracleTrue "2TPM").ctrl.commsError
        = !(oracleTrue cAxis3.nx)
    ∧ (lowLevelWriteRead cAxis3 oracleTrue "2TPM").evs
        = [Ev.xchg "2TPM" (oracleTrue cAxis3.nx)] :=
  (C6_flag_update_on_attempted_exchanges cAxis3 oracleTrue "2TPM").2.2 rfl rfl

/-- C7 counterexample: with no transport attached both consecutive poll
cycles fail within one error-report interval, and on neither cycle is the
controller comms-health flag written (nor any report emitted): the claim
that the flag is updated on both failing cycles is refuted. -/
theorem C7_two_failing_polls_write_no_flag :
    (0 : ℚ) - cNoPort.lastTimeSecs < P6K_ERROR_PRINT_TIME
    ∧ (poll cNoPort 0).ok = false
    ∧ (poll cNoPort 0).flagWritten = false
    ∧ (poll cNoPort 0).reportEmitted = false
    ∧ (poll (poll cNoPort 0).ctrl 0).ok = false
    ∧ (poll (poll cNoPort 0).ctrl 0).flagWritten = false
    ∧ (poll (poll cNoPort 0).ctrl 0).reportEmitted = false := by
  refine ⟨by norm_num [cNoPort, p6kCreateAxes, p6kControllerNew, P6K_ERROR_PRINT_TIME], rfl, rfl, rfl, rfl, rfl, rfl⟩

/-- C7 (amended): when two consecutive poll cycles both fail (which, in the
source as written, happens only on the missing-transport early return), no
user-visible error report is emitted on either cycle — in particular at most
one — and the comms-health flag is written on neither cycle; the first
failing cycle leaves the controller state unchanged. -/
theorem C7_failing_polls_skip_report_and_flag (c : Ctrl) (t1 t2 : ℚ)
    (h1 : (poll c t1).ok = false)
    (_h2 : (poll (poll c t1).ctrl t2).ok = false)
    (_hint : t2 - t1 < P6K_ERROR_PRINT_TIME) :
    (poll c t1).reportEmitted = false
    ∧ (poll (poll c t1).ctrl t2).reportEmitted = false
    ∧ (poll c t1).flagWritten = false
    ∧ (poll (poll c t1).ctrl t2).flagWritten = false
    ∧ (poll c t1).ctrl = c := by
  cases hb : c.hasPort with
  | true => exact absurd h1 (by simp [poll_ok c t1 hb])
  | false =>
    rw [poll_noPort c t1 hb]
    dsimp only
    rw [poll_noPort c t2 hb]
    exact ⟨rfl, rfl, rfl, rfl, rfl⟩

/-- Witness for C7 (amended) at concrete inputs. -/
theorem C7_failing_polls_skip_report_and_flag_witness :
    (poll cNoPort 0).reportEmitted = false
    ∧ (poll (poll cNoPort 0).ctrl (1/2)).reportEmitted = false
    ∧ (poll cNoPort 0).flagWritten = false
    ∧ (poll (poll cNoPort 0).ctrl (1/2)).flagWritten = false
    ∧ (poll cNoPort 0).ctrl = cNoPort :=
  C7_failing_polls_skip_report_and_flag cNoPort 0 (1/2) rfl rfl
    (by norm_num [P6K_ERROR_PRINT_TIME])

/-- C10: `getAxis` returns an absent result exactly for axis numbers that
are negative or not below `numAxes_` (in a controller whose in-range slots
are all populated); every in-range axis number yields the stored entry, with
the index provably inside the array bound; and the constructor sets
`numAxes_` to the configured axis count plus one (address 0 being the
controller-parameter dummy axis). -/
theorem C10_getAxis_range (c : Ctrl) (n : ℤ)
    (hfull : ∀ i : ℕ, i < c.numAxes → (c.axes i).isSome = true) :
    ((getAxis c n).isSome = false ↔ (n < 0 ∨ (c.numAxes : ℤ) ≤ n))
    ∧ (0 ≤ n → n < (c.numAxes : ℤ) →
        getAxis c n = c.axes n.toNat ∧ n.toNat < c.numAxes)
    ∧ (∀ (numAxes : ℕ) (connectOk : Bool),
        (p6kControllerNew numAxes connectOk).numAxes = numAxes + 1) := by
  refine ⟨⟨?_, ?_⟩, ?_, fun _ _ => rfl⟩
  · intro h
    by_contra hc
    unfold getAxis at h
    rw [if_neg hc] at h
    have h1 : 0 ≤ n := le_of_not_lt (not_or.mp hc).1
    have h2 : n < (c.numAxes : ℤ) := lt_of_not_le (not_or.mp hc).2
    have h3 : n.toNat < c.numAxes := by omega
    rw [hfull n.toNat h3] at h
    cases h
  · intro h
    unfold getAxis
    rw [if_pos h]
    rfl
  · intro h1 h2
    have hc : ¬(n < 0 ∨ (c.numAxes : ℤ) ≤ n) := by omega
    refine ⟨?_, by omega⟩
    unfold getAxis
    rw [if_neg hc]

/-- Witness for C10 at a fully populated controller with three real axes:
axis 5 is out of range (absent), axis 2 is returned from the stored slot,
and the constructed `numAxes_` is the axis count plus one. -/
theorem C10_getAxis_range_witness :
    (getAxis cAxis3 5).isSome = false
    ∧ getAxis cAxis3 2 = cAxis3.axes 2
    ∧ (p6kControllerNew 3 true).numAxes = 3 + 1 := by
  refine ⟨?_, ?_, (C10_getAxis_range cAxis3 5 (by decide)).2.2 3 true⟩
  · exact (C10_getAxis_range cAxis3 5 (by decide)).1.mpr (by decide)
  · have h := ((C10_getAxis_range cAxis3 2 (by decide)).2.1 (by decide) (by decide)).1
    simpa using h

/-- A transport oracle answering the first `k` exchanges with success and
every later one with failure. -/
def oracleFirst (k : ℕ) : ℕ → Bool := fun n => decide (n < k)

/-- `cAxis3` with encoder ratio 2 in the parameter mirror. -/
def cAxis3r2 : Ctrl := { cAxis3 with encoderRatio := 2 }

/-- C3 counterexample: at `setPosition(axis 3, -5/2)` (encoder ratio 1) the
code issues the position value `floor(-5/2 + 0.5) = -2` in both the `PSET`
and `PESET` commands, while round-half-away-from-zero of `-5/2` is `-3`: the
two rounding rules asserted simultaneously by the claim disagree on negative
halves, and the source computes `floor(x + 0.5)`. -/
theorem C3_negative_half_rounds_up :
    (writeFloat64 cAxis3 oracleTrue 0 3 motorPosition_ (-(5/2))).evs
      = [Ev.paramSet 3 motorPosition_ (-(5/2)),
         Ev.xchg (stopCmd 3) true,
         Ev.xchg (psetCmd 3 (-2)) true,
         Ev.xchg (pesetCmd 3 (-2)) true,
         Ev.xchg (statusCmd 3) true,
         Ev.refresh 3]
    ∧ roundHalfAway (-(5/2)) = -3 := by
  have h := (writeFloat64_pos_trace cAxis3 oracleTrue 0 3 (-(5/2))
      (by decide) rfl rfl (fun n => rfl)).1
  have er : cAxis3.encoderRatio = 1 := rfl
  rw [er] at h
  have e1 : (⌊(-(5/2) : ℚ) + 1/2⌋ : ℤ) = -2 := by norm_num
  rw [e1] at h
  have e2 : (⌊((-2 : ℤ) : ℚ) * 1 + 1/2⌋ : ℤ) = -2 := by norm_num
  rw [e2] at h
  refine ⟨h, ?_⟩
  unfold roundHalfAway
  rw [if_neg (by norm_num)]
  norm_num

/-- C3 (amended): for every axis and real input, with a connected healthy
link and a transport answering every exchange, `setPosition` issues the stop
command, a `PSET` whose value is `⌊p + 1/2⌋`, and a `PESET` whose value is
`⌊⌊p + 1/2⌋ * r + 1/2⌋` where `r` is the mirrored encoder ratio — both
roundings being `floor(x + 0.5)` (round half up), which agrees with
round-half-away-from-zero exactly on non-negative arguments — followed by
the axis status refresh. -/
theorem C3_setPosition_rounding (c : Ctrl) (o : ℕ → Bool) (d : ℚ) (a : ℤ)
    (p : ℚ) (hax : (getAxis c a).isSome = true)
    (hp : c.hasPort = true) (hh : c.commsError = false)
    (ho : ∀ n, o n = true) :
    (writeFloat64 c o d a motorPosition_ p).evs
      = [Ev.paramSet a motorPosition_ p,
         Ev.xchg (stopCmd a) true,
         Ev.xchg (psetCmd a ⌊p + 1/2⌋) true,
         Ev.xchg (pesetCmd a (⌊(⌊p + 1/2⌋ : ℚ) * c.encoderRatio + 1/2⌋)) true,
         Ev.xchg (statusCmd a) true,
         Ev.refresh a]
    ∧ (0 ≤ p → ⌊p + 1/2⌋ = roundHalfAway p) := by
  refine ⟨(writeFloat64_pos_trace c o d a p hax hp hh ho).1, fun hp0 => ?_⟩
  unfold roundHalfAway
  rw [if_pos hp0]

/-- Witness for C3 (amended): `setPosition(axis 3, 100.4)` with encoder
ratio 2 issues position value 100 and encoder value 200. -/
theorem C3_setPosition_rounding_witness :
    (writeFloat64 cAxis3r2 oracleTrue 0 3 motorPosition_ (502/5)).evs
      = [Ev.paramSet 3 motorPosition_ (502/5),
         Ev.xchg (stopCmd 3) true,
         Ev.xchg (psetCmd 3 100) true,
         Ev.xchg (pesetCmd 3 200) true,
         Ev.xchg (statusCmd 3) true,
         Ev.refresh 3]
    ∧ (⌊(502/5 : ℚ) + 1/2⌋ : ℤ) = roundHalfAway (502/5) := by
  have h := C3_setPosition_rounding cAxis3r2 oracleTrue 0 3 (502/5)
      (by decide) rfl rfl (fun n => rfl)
  have er : cAxis3r2.encoderRatio = 2 := rfl
  have e1 : (⌊(502/5 : ℚ) + 1/2⌋ : ℤ) = 100 := by norm_num
  have e2 : (⌊((100 : ℤ) : ℚ) * 2 + 1/2⌋ : ℤ) = 200 := by norm_num
  refine ⟨?_, ?_⟩
  · have h1 := h.1
    rw [er, e1, e2] at h1
    exact h1
  · exact h.2 (by norm_num)

/-- C4: for every `setPosition` on a valid axis: if the initial stop
exchange fails (missing port, or a failed round trip on a healthy link) the
whole operation reports failure, sets the axis comms-error flag, and issues
neither the `PSET` nor the `PESET` command (the trace holds at most the
failed stop exchange); if instead the `PSET` or the `PESET` exchange fails,
the operation likewise reports failure and sets the axis comms-error flag,
while the earlier successful exchanges remain issued — nothing is rolled
back. -/
theorem C4_setPosition_transport_failure (c : Ctrl) (o : ℕ → Bool) (d : ℚ)
    (a : ℤ) (p : ℚ) (hax : (getAxis c a).isSome = true) :
    ((c.hasPort = false ∨ (c.hasPort = true ∧ c.commsError = false ∧ o c.nx = false)) →
       (writeFloat64 c o d a motorPosition_ p).ok = false
       ∧ axisCommsErr (writeFloat64 c o d a motorPosition_ p).ctrl a = true
       ∧ ((writeFloat64 c o d a motorPosition_ p).evs
            = [Ev.paramSet a motorPosition_ p, Ev.refresh a]
          ∨ (writeFloat64 c o d a motorPosition_ p).evs
            = [Ev.paramSet a motorPosition_ p, Ev.xchg (stopCmd a) false,
               Ev.refresh a]))
    ∧ (c.hasPort = true → c.commsError = false → o c.nx = true →
       o (c.nx + 1) = false →
       (writeFloat64 c o d a motorPosition_ p).ok = false
       ∧ axisCommsErr (writeFloat64 c o d a motorPosition_ p).ctrl a = true
       ∧ (writeFloat64 c o d a motorPosition_ p).evs
           = [Ev.paramSet a motorPosition_ p, Ev.xchg (stopCmd a) true,
              Ev.xchg (psetCmd a ⌊p + 1/2⌋) false, Ev.refresh a])
    ∧ (c.hasPort = true → c.commsError = false → o c.nx = true →
       o (c.nx + 1) = true → o (c.nx + 1 + 1) = false →
       (writeFloat64 c o d a motorPosition_ p).ok = false
       ∧ axisCommsErr (writeFloat64 c o d a motorPosition_ p).ctrl a = true
       ∧ (writeFloat64 c o d a motorPosition_ p).evs
           = [Ev.paramSet a motorPosition_ p, Ev.xchg (stopCmd a) true,
              Ev.xchg (psetCmd a ⌊p + 1/2⌋) true,
              Ev.xchg (pesetCmd a (⌊(⌊p + 1/2⌋ : ℚ) * c.encoderRatio + 1/2⌋)) false,
              Ev.refresh a]) := by
  refine ⟨fun hfail => ?_, fun hp hh h0 h1 => ?_, fun hp hh h0 h1 h2 => ?_⟩
  · rcases hfail with hp | ⟨hp, hh, h0⟩
    · obtain ⟨hevs, hok, hcm, _⟩ := writeFloat64_pos_noPort c o d a p hax hp
      exact ⟨hok, hcm, Or.inl hevs⟩
    · obtain ⟨hevs, hok, hcm, _⟩ := writeFloat64_pos_stopFail c o d a p hax hp hh h0
      exact ⟨hok, hcm, Or.inr hevs⟩
  · obtain ⟨hevs, hok, hcm, _⟩ := writeFloat64_pos_psetFail c o d a p hax hp hh h0 h1
    exact ⟨hok, hcm, hevs⟩
  · obtain ⟨hevs, hok, hcm, _⟩ := writeFloat64_pos_pesetFail c o d a p hax hp hh h0 h1 h2
    exact ⟨hok, hcm, hevs⟩

/-- Witness for C4, exercising all three failure stages on axis 3 with
concrete oracles: every exchange failing, only the first succeeding, and
only the first two succeeding. -/
theorem C4_setPosition_transport_failure_witness :
    ((writeFloat64 cAxis3 oracleFalse 0 3 motorPosition_ 7).ok = false
      ∧ axisCommsErr (writeFloat64 cAxis3 oracleFalse 0 3 motorPosition_ 7).ctrl 3 = true)
    ∧ ((writeFloat64 cAxis3 (oracleFirst 1) 0 3 motorPosition_ 7).ok = false
      ∧ axisCommsErr (writeFloat64 cAxis3 (oracleFirst 1) 0 3 motorPosition_ 7).ctrl 3 = true)
    ∧ ((writeFloat64 cAxis3 (oracleFirst 2) 0 3 motorPosition_ 7).ok = false
      ∧ axisCommsErr (writeFloat64 cAxis3 (oracleFirst 2) 0 3 motorPosition_ 7).ctrl 3 = true) := by
  refine ⟨?_, ?_, ?_⟩
  · have h := (C4_setPosition_transport_failure cAxis3 oracleFalse 0 3 7
        (by decide)).1 (Or.inr ⟨rfl, rfl, rfl⟩)
    exact ⟨h.1, h.2.1⟩
  · have h := (C4_setPosition_transport_failure cAxis3 (oracleFirst 1) 0 3 7
        (by decide)).2.1 rfl rfl rfl rfl
    exact ⟨h.1, h.2.1⟩
  · have h := (C4_setPosition_transport_failure cAxis3 (oracleFirst 2) 0 3 7
        (by decide)).2.2 rfl rfl rfl rfl rfl
    exact ⟨h.1, h.2.1⟩

/-- C8: a low- or high-soft-limit write on a valid axis stores the value in
the per-axis parameter mirror, issues no transport exchange at all, and the
operation reports success. -/
theorem C8_soft_limit_writes (c : Ctrl) (o : ℕ → Bool) (d : ℚ) (a : ℤ)
    (v : ℚ) (fn : ℕ) (hax : (getAxis c a).isSome = true)
    (hfn : fn = motorLowLimit_ ∨ fn = motorHighLimit_) :
    (writeFloat64 c o d a fn v).ok = true
    ∧ xchgs (writeFloat64 c o d a fn v).evs = []
    ∧ axisDParam (writeFloat64 c o d a fn v).ctrl a fn = v := by
  have hfn2 : fn ≠ motorPosition_ := by
    rcases hfn with h | h <;>
      simp [h, motorLowLimit_, motorHighLimit_, motorPosition_]
  obtain ⟨hevs, hok, _, hdp⟩ := writeFloat64_other c o d a fn v hax hfn2
  refine ⟨hok, ?_, hdp⟩
  rw [hevs]
  rfl

/-- Witness for C8: a low-limit write on axis 2 succeeds, issues no
exchange, and is mirrored. -/
theorem C8_soft_limit_writes_witness :
    (writeFloat64 cAxis3 oracleTrue 0 2 motorLowLimit_ 9).ok = true
    ∧ xchgs (writeFloat64 cAxis3 oracleTrue 0 2 motorLowLimit_ 9).evs = []
    ∧ axisDParam (writeFloat64 cAxis3 oracleTrue 0 2 motorLowLimit_ 9).ctrl 2 motorLowLimit_ = 9 :=
  C8_soft_limit_writes cAxis3 oracleTrue 0 2 9 motorLowLimit_ (by decide)
    (Or.inl rfl)

/-- C9: on every `writeFloat64` over a valid axis the first observable event
is the parameter-mirror write of the requested value — it precedes every
transport exchange — and whenever the operation fails the mirror still holds
the newly requested value afterwards (the failed path never reverts it, and
the axis status refresh is skipped on a broken link). -/
theorem C9_mirror_written_before_exchanges (c : Ctrl) (o : ℕ → Bool) (d : ℚ)
    (a : ℤ) (fn : ℕ) (v : ℚ) (hax : (getAxis c a).isSome = true) :
    (writeFloat64 c o d a fn v).evs.head? = some (Ev.paramSet a fn v)
    ∧ ((writeFloat64 c o d a fn v).ok = false →
        axisDParam (writeFloat64 c o d a fn v).ctrl a fn = v) := by
  by_cases hfn : fn = motorPosition_
  · subst hfn
    cases hp : c.hasPort with
    | false =>
      obtain ⟨hevs, hok, _, hdp⟩ := writeFloat64_pos_noPort c o d a v hax hp
      exact ⟨by rw [hevs]; rfl, fun _ => hdp⟩
    | true =>
      cases hh : c.commsError with
      | true =>
        obtain ⟨hevs, hok, hdp⟩ := writeFloat64_pos_skipAll c o d a v hax hp hh
        exact ⟨by rw [hevs]; rfl, fun hcontra => absurd hok (by simp [hcontra])⟩
      | false =>
        cases h0 : o c.nx with
        | false =>
          obtain ⟨hevs, hok, _, hdp⟩ := writeFloat64_pos_stopFail c o d a v hax hp hh h0
          exact ⟨by rw [hevs]; rfl, fun _ => hdp⟩
        | true =>
          cases h1 : o (c.nx + 1) with
          | false =>
            obtain ⟨hevs, hok, _, hdp⟩ := writeFloat64_pos_psetFail c o d a v hax hp hh h0 h1
            exact ⟨by rw [hevs]; rfl, fun _ => hdp⟩
          | true =>
            cases h2 : o (c.nx + 1 + 1) with
            | false =>
              obtain ⟨hevs, hok, _, hdp⟩ := writeFloat64_pos_pesetFail c o d a v hax hp hh h0 h1 h2
              exact ⟨by rw [hevs]; rfl, fun _ => hdp⟩
            | true =>
              obtain ⟨hok, hhead⟩ := writeFloat64_pos_allOk c o d a v hax hp hh h0 h1 h2
              exact ⟨hhead, fun hcontra => absurd hok (by simp [hcontra])⟩
  · obtain ⟨hevs, hok, _, hdp⟩ := writeFloat64_other c o d a fn v hax hfn
    exact ⟨by rw [hevs]; rfl, fun _ => hdp⟩

/-- Witness for C9: a failing set-position on axis 3 (transport down) still
leaves the requested value 7 in the mirror, with the mirror write first in
the trace. -/
theorem C9_mirror_written_before_exchanges_witness :
    (writeFloat64 cAxis3 oracleFalse 0 3 motorPosition_ 7).evs.head?
      = some (Ev.paramSet 3 motorPosition_ 7)
    ∧ axisDParam (writeFloat64 cAxis3 oracleFalse 0 3 motorPosition_ 7).ctrl 3 motorPosition_ = 7 := by
  have h := C9_mirror_written_before_exchanges cAxis3 oracleFalse 0 3
      motorPosition_ 7 (by decide)
  exact ⟨h.1, h.2 rfl⟩

end P6k
